import Mathlib

/-!
Verification of the MCP Server PRTG diagnostic scripts.

This file shallowly embeds the three Python diagnostic scripts of the
repository (test-mcp-sse.py, test-mcp-sse-v2.py, test_mcp_client.py) and
proves properties of the embedded code.

Modelling conventions:
* a decoded stream line is a `List Char`; Python `str.strip` is `pyStrip`;
* a parsed JSON value is `Json`; a payload that `json.loads` rejects is
  modelled as `none : Option Json`;
* Python dictionary membership, subscription and `.get` are modelled by
  `pyIn`, `pySubscript` and list lookup; a `none` result of `pyIn` or
  `pySubscript` models a raised `TypeError` / `KeyError`, which the scripts
  catch with their blanket `except` clauses;
* the background listener thread communicates through set-once shared
  variables; the orchestrator's bounded polling loops are modelled by a
  function `obs : Nat -> Option String` giving the value observed at each
  poll, folded by `pollFind` / `pollFlag`;
* the network is abstracted as the input data: the HTTP status / body
  returned by the POST (`PostV1`, `PostV2`, `PostClient`) and the contents
  of the shared response queue at consumption time.
-/

/-! ## A model of parsed JSON values -/

/-- Parsed JSON value, the result of a successful `json.loads`. -/
inductive Json where
  | null
  | bool (b : Bool)
  | num (n : Int)
  | str (s : String)
  | arr (elems : List Json)
  | obj (fields : List (String × Json))

/-- Python `needle in hay` for a parsed JSON value `hay` and a string
`needle`: key membership for a dict, element membership for a list,
substring test for a string; `none` models the `TypeError` raised on the
remaining shapes. -/
def pyIn (needle : String) : Json → Option Bool
  | .obj kvs => some (kvs.lookup needle).isSome
  | .arr xs => some (xs.any fun j => match j with | .str s => s == needle | _ => false)
  | .str s => some (hayContains needle.toList s.toList)
  | _ => none
where
  /-- Boolean contiguous-sublist test, Python substring containment. -/
  hayContains (pat : List Char) : List Char → Bool
    | [] => pat.isEmpty
    | c :: cs => pat.isPrefixOf (c :: cs) || hayContains pat cs

/-- Python `hay[key]` for a parsed JSON value and a string key: dict lookup
(`none` is the `KeyError` on a missing key); `none` also models the
`TypeError` raised when subscripting any non-dict value with a string. -/
def pySubscript (j : Json) (key : String) : Option Json :=
  match j with
  | .obj kvs => kvs.lookup key
  | _ => none

/-! ## The SSE listener (sse_listener in test-mcp-sse.py and
test-mcp-sse-v2.py) -/

/-- Python `str.strip()`: remove leading and trailing whitespace. -/
def pyStrip (l : List Char) : List Char :=
  ((l.dropWhile Char.isWhitespace).reverse.dropWhile Char.isWhitespace).reverse

/-- The literal searched for by the session-id regular expression. -/
def sessLit : List Char := "sessionId=".toList

/-- The line marker for SSE data payloads. -/
def dataLit : List Char := "data:".toList

/-- The marker the listener uses to drop bare endpoint URLs. -/
def httpLit : List Char := "http".toList

/-- Character class of the regular expression `sessionId=([a-f0-9\-]+)`. -/
def hexHyphen (c : Char) : Bool :=
  (('a' ≤ c) && (c ≤ 'f')) || (('0' ≤ c) && (c ≤ '9')) || (c == '-')

/-- Whether the regular expression `sessionId=([a-f0-9\-]+)` matches at the
head of `l`: the literal is a prefix and at least one character of the
class follows. -/
def matchHere (l : List Char) : Bool :=
  sessLit.isPrefixOf l && !((l.drop sessLit.length).takeWhile hexHyphen).isEmpty

/-- The captured group of a match at the head of `l`: the maximal (greedy)
run of `[a-f0-9\-]` characters after the literal. -/
def tokenHere (l : List Char) : List Char :=
  (l.drop sessLit.length).takeWhile hexHyphen

/-- Whether the regular expression matches at position `p` of `l`. -/
def matchAtB (l : List Char) (p : Nat) : Bool :=
  matchHere (l.drop p)

/-- Python `re.search(r'sessionId=([a-f0-9\-]+)', line)`: scan left to
right for the first position where the pattern matches and return the
captured group. -/
def reSearchSession : List Char → Option (List Char)
  | [] => none
  | c :: cs =>
    if matchHere (c :: cs) then some (tokenHere (c :: cs))
    else reSearchSession cs

/-- The shared state mutated by the listener thread: the set-once session
handle and the append-only response queue. -/
structure ListenerState where
  session_id : Option (List Char)
  sse_responses : List (List Char)

/-- Session-extraction step of the listener loop: while `session_id` is
unset and the stripped line contains the `sessionId=` literal, run the
regular-expression search and publish the captured token on a match. -/
def sessionStep (st : ListenerState) (line : List Char) : ListenerState :=
  if st.session_id.isNone && pyIn.hayContains sessLit line then
    match reSearchSession line with
    | some tok => { st with session_id := some tok }
    | none => st
  else st

/-- Data-collection step of the listener loop: if the stripped line starts
with `data:`, drop those five characters, strip again, and enqueue the
payload when it is non-empty and does not start with `http`. -/
def dataStep (st : ListenerState) (line : List Char) : ListenerState :=
  if dataLit.isPrefixOf line then
    let d := pyStrip (line.drop 5)
    if !d.isEmpty && !(httpLit.isPrefixOf d) then
      { st with sse_responses := st.sse_responses ++ [d] }
    else st
  else st

/-- One iteration of the listener loop of `sse_listener` on a decoded raw
line (both scripts strip the line, extract the session id on the first
regex match while `session_id` is unset, and enqueue stripped `data:`
payloads that are non-empty and do not start with `http`). -/
def processLine (st : ListenerState) (raw : List Char) : ListenerState :=
  dataStep (sessionStep st (pyStrip raw)) (pyStrip raw)

/-! ## Interpretation of a consumed JSON-RPC response (Step 3 of
test_mcp_flow, identical in test-mcp-sse.py and test-mcp-sse-v2.py) -/

/-- How `test_mcp_flow`'s response-interpretation code ends. -/
inductive RpcInterp where
  | success
  | unexpectedFormat
  | excFail
  deriving DecidableEq

/-- Whether the tool-presentation loop
`for tool in tools: print(f...tool['name']...tool['description']...)`
(preceded by `len(tools)`) runs without raising: it does iff `tools` is a
list of dicts each carrying a `name` and a `description` key, or is an
empty string or empty dict (whose iteration is empty). -/
def presentToolsOk (tools : Json) : Bool :=
  match tools with
  | .arr xs =>
    xs.all fun t => (pySubscript t "name").isSome && (pySubscript t "description").isSome
  | .str s => s.isEmpty
  | .obj kvs => kvs.isEmpty
  | _ => false

/-- The branch on a parsed response `result` in both sse scripts:
`if "result" in result and "tools" in result["result"]:` presents the
tools and returns True, `else` prints "Unexpected response format" and
returns False; any exception raised on the way (TypeError of `in`,
TypeError/KeyError of subscription, or a raise inside the presentation
loop) is caught by the surrounding blanket `except` and yields False. -/
def interpretResponse (r : Json) : RpcInterp :=
  match pyIn "result" r with
  | none => .excFail
  | some false => .unexpectedFormat
  | some true =>
    match pySubscript r "result" with
    | none => .excFail
    | some rv =>
      match pyIn "tools" rv with
      | none => .excFail
      | some false => .unexpectedFormat
      | some true =>
        match pySubscript rv "tools" with
        | none => .excFail
        | some tools => if presentToolsOk tools then .success else .excFail

/-- Characterization of the successful shape, stated structurally (used to
compare the code against the spec's description of success). -/
def reportsToolsSuccess (r : Json) : Bool :=
  match r with
  | .obj kvs =>
    match kvs.lookup "result" with
    | some (.obj kvs2) =>
      match kvs2.lookup "tools" with
      | some tools => presentToolsOk tools
      | none => false
    | _ => false
  | _ => false

/-- Claim-side predicate, written from the spec's words for claim C3: the
parsed object has a `result` field containing a `tools` array. -/
def specResultToolsArray (r : Json) : Bool :=
  match r with
  | .obj kvs =>
    match kvs.lookup "result" with
    | some (.obj kvs2) =>
      match kvs2.lookup "tools" with
      | some (.arr _) => true
      | _ => false
    | _ => false
  | _ => false

/-! ## The handshake orchestrators (test_mcp_flow of both sse scripts) -/

/-- Outcome of the POST in test-mcp-sse.py: urllib either returns a
response object with a status, raises `HTTPError` (carrying a code and a
reason), or raises some other exception. The response body is carried for
reference but the v1 script never reads it. -/
inductive PostV1 where
  | status (code : Nat) (body : String)
  | httpError (code : Nat) (reason : String)
  | exc

/-- Outcome of the POST in test-mcp-sse-v2.py and test_mcp_client.py:
`requests.post` returns a status and a body text for every HTTP status, or
raises on a transport error. -/
inductive PostV2 where
  | status (code : Nat) (body : String)
  | exc

/-- Observable outcome of one run of `test_mcp_flow`: the returned flag,
whether the POST was issued, whether the script took the accepted branch,
whether the shared response queue was read, which queue entry was
consumed (`some none` is a consumed entry that `json.loads` rejected), and
the failure messages printed. -/
structure FlowOutcome where
  success : Bool
  postIssued : Bool
  accepted : Bool
  queueRead : Bool
  consumed : Option (Option Json)
  diagnostics : List String

/-- The bounded polling loop `for i in range(n): if shared: break;
time.sleep(...)` followed by a final read of the shared variable: the
value seen is the first non-`none` observation among polls `0..n-1` and
the final check `n`. -/
def pollFind (obs : Nat → Option String) (n : Nat) : Option String :=
  match (List.range n).findSome? obs with
  | some s => some s
  | none => obs n

/-- The same bounded polling loop over a Boolean shared flag. -/
def pollFlag (obs : Nat → Bool) (n : Nat) : Bool :=
  (List.range n).any obs || obs n

/-- The accepted-status test of test-mcp-sse.py:
`if status == 202 or status == 200`. -/
def acceptedStatus (code : Nat) : Bool := code == 202 || code == 200

/-- The accepted-status test of test-mcp-sse-v2.py:
`if response.status_code in [200, 202]`. -/
def acceptedStatusV2 (code : Nat) : Bool := code == 200 || code == 202

/-- Consumption of the shared response queue after an accepted POST,
identical in both sse scripts: if the queue is empty report "No response
received via SSE"; otherwise `json.loads(sse_responses[0])` (a parse
failure raises and is caught) and interpret the parsed response. -/
def consumeOutcome (queue : List (Option Json)) : FlowOutcome :=
  match queue with
  | [] =>
    { success := false, postIssued := true, accepted := true, queueRead := true,
      consumed := none, diagnostics := ["❌ No response received via SSE"] }
  | p :: _ =>
    match p with
    | none =>
      { success := false, postIssued := true, accepted := true, queueRead := true,
        consumed := some none, diagnostics := ["❌ Error: <exception>"] }
    | some r =>
      match interpretResponse r with
      | .success =>
        { success := true, postIssued := true, accepted := true, queueRead := true,
          consumed := some (some r), diagnostics := [] }
      | .unexpectedFormat =>
        { success := false, postIssued := true, accepted := true, queueRead := true,
          consumed := some (some r), diagnostics := ["❌ Unexpected response format"] }
      | .excFail =>
        { success := false, postIssued := true, accepted := true, queueRead := true,
          consumed := some (some r), diagnostics := ["❌ Error: <exception>"] }

/-- test_mcp_flow of test-mcp-sse.py: wait for the session id over 20
polls plus a final check; on failure report and return without POSTing;
otherwise POST, accept exactly statuses 202/200 (anything else prints only
the numeric status, the body is never read), and consume the queue only
after acceptance. -/
def test_mcp_flow_v1 (obs : Nat → Option String) (post : PostV1)
    (queue : List (Option Json)) : FlowOutcome :=
  match pollFind obs 20 with
  | none =>
    { success := false, postIssued := false, accepted := false, queueRead := false,
      consumed := none, diagnostics := ["❌ Failed to get sessionId from SSE connection"] }
  | some _ =>
    match post with
    | .httpError code reason =>
      { success := false, postIssued := true, accepted := false, queueRead := false,
        consumed := none,
        diagnostics := ["❌ HTTP Error: " ++ toString code ++ " - " ++ reason] }
    | .exc =>
      { success := false, postIssued := true, accepted := false, queueRead := false,
        consumed := none, diagnostics := ["❌ Error: <exception>"] }
    | .status code _ =>
      if acceptedStatus code then consumeOutcome queue
      else
        { success := false, postIssued := true, accepted := false, queueRead := false,
          consumed := none, diagnostics := ["❌ Unexpected status: " ++ toString code] }

/-- test_mcp_flow of test-mcp-sse-v2.py: wait for the connected flag (10
polls plus a final check), then for the session id (same bounds); on
either failure return without POSTing; otherwise POST, accept exactly
statuses 200/202, print both the status and the response body text on
rejection, and consume the queue only after acceptance. -/
def test_mcp_flow_v2 (connObs : Nat → Bool) (obs : Nat → Option String)
    (post : PostV2) (queue : List (Option Json)) : FlowOutcome :=
  if pollFlag connObs 10 then
    match pollFind obs 10 with
    | none =>
      { success := false, postIssued := false, accepted := false, queueRead := false,
        consumed := none, diagnostics := ["❌ Failed to get sessionId from SSE connection"] }
    | some _ =>
      match post with
      | .exc =>
        { success := false, postIssued := true, accepted := false, queueRead := false,
          consumed := none, diagnostics := ["❌ Error: <exception>"] }
      | .status code body =>
        if acceptedStatusV2 code then consumeOutcome queue
        else
          { success := false, postIssued := true, accepted := false, queueRead := false,
            consumed := none,
            diagnostics := ["❌ Unexpected status: " ++ toString code,
                            "   Response: " ++ body] }
  else
    { success := false, postIssued := false, accepted := false, queueRead := false,
      consumed := none, diagnostics := ["❌ Failed to connect to SSE endpoint"] }

/-! ## The endpoint-event client (test_mcp_client.py) -/

/-- One server-sent event as framed by the sseclient library: a name and a
data payload. -/
structure SSEEvent where
  event : List Char
  data : List Char
  deriving DecidableEq

/-- The name of the event carrying the message-post URL. -/
def endpointLit : List Char := "endpoint".toList

/-- Body of test_sse_connection after a successful stream connect (lines
164-178): iterate the framed events, but the loop body ends in `break`, so
only the first event is ever examined; it is used iff its name is
`endpoint`, in which case its data is published verbatim as the message
URL. An empty stream (or an exception) yields `(false, none)`. -/
def test_sse_connection (events : List SSEEvent) : Bool × Option (List Char) :=
  match events with
  | [] => (false, none)
  | e :: _ => if e.event = endpointLit then (true, some e.data) else (false, none)

/-- Outcome of the POST in test_mcp_client.py: the body is carried as the
result of `response.json()` (`none` when that call raises). -/
inductive PostClient where
  | status (code : Nat) (body : Option Json)
  | exc

/-- Observable outcome of one client RPC check: the returned flag, whether
the POST was issued, and the parsed POST response body that was printed
and interpreted (the client scripts never read the SSE stream here). -/
structure ClientCallOutcome where
  success : Bool
  postIssued : Bool
  presented : Option Json

/-- Whether the client tool-presentation loop
`for tool in tools: print(f...tool.get('name')...tool.get('description',
'No description')[:60]...)` (preceded by `len(tools)`) runs without
raising: `tools` must be a list of dicts whose `description` values, when
present, are sliceable (strings or lists), or an empty string or dict. -/
def presentToolsClientOk (tools : Json) : Bool :=
  match tools with
  | .arr xs =>
    xs.all fun t =>
      match t with
      | .obj kvs =>
        match kvs.lookup "description" with
        | some (.str _) => true
        | some (.arr _) => true
        | some _ => false
        | none => true
      | _ => false
  | .str s => s.isEmpty
  | .obj kvs => kvs.isEmpty
  | _ => false

/-- test_mcp_rpc_call (test_mcp_client.py lines 187-241): refuse to POST
without a message URL; otherwise POST the tools/list request and print
`response.json()` (the POST's own body) unconditionally; on status 200 and
`"result" in data` present `data.get("result", {}).get("tools", [])` from
that same body and return True; other shapes, statuses and any raise yield
False. -/
def test_mcp_rpc_call (message_url : Option String) (post : PostClient) :
    ClientCallOutcome :=
  match message_url with
  | none => { success := false, postIssued := false, presented := none }
  | some _ =>
    match post with
    | .exc => { success := false, postIssued := true, presented := none }
    | .status code body =>
      match body with
      | none => { success := false, postIssued := true, presented := none }
      | some data =>
        { success := rpc_call_success code data, postIssued := true,
          presented := some data }
where
  /-- The returned flag, computed from the parsed POST body alone: status
  200 with `"result" in data`, a dict-shaped `data.get("result", {})`, and
  a presentable tools list yield True; everything else (including any
  raise) yields False. -/
  rpc_call_success (code : Nat) (data : Json) : Bool :=
    if code == 200 then
      match pyIn "result" data with
      | some true =>
        match data with
        | .obj kvs =>
          match (kvs.lookup "result").getD (.obj []) with
          | .obj kvs2 => presentToolsClientOk ((kvs2.lookup "tools").getD (.arr []))
          | _ => false
        | _ => false
      | _ => false
    else false

/-- test_mcp_get_sensors (test_mcp_client.py lines 243-301): refuse
without a message URL; on status 200 parse the POST body; a dict with a
`result` key prints the result and returns True, a dict with an `error`
key prints the RPC error and still returns True; a dict with neither
returns False ("Unexpected response format"); any other status, a
non-JSON body, or any raise (including `data.get` on a non-dict) returns
False. -/
def test_mcp_get_sensors (message_url : Option String) (post : PostClient) : Bool :=
  match message_url with
  | none => false
  | some _ =>
    match post with
    | .exc => false
    | .status code body =>
      if code == 200 then
        match body with
        | none => false
        | some data =>
          match pyIn "result" data with
          | none => false
          | some true => match data with | .obj _ => true | _ => false
          | some false =>
            match pyIn "error" data with
            | none => false
            | some true => match data with | .obj _ => true | _ => false
            | some false => false
      else false

/-! ## Process boundaries and exit codes -/

/-- The exception classes relevant at the top level: `KeyboardInterrupt`
(which the scripts' `except Exception` clauses do not catch) and any other
unexpected exception reaching the top. -/
inductive PyExc where
  | keyboardInterrupt
  | unexpected
  deriving DecidableEq

/-- How a process run ends: a controlled `sys.exit` with a code, or an
exception escaping the script to the interpreter. -/
inductive RunEnd where
  | exitCode (code : Nat)
  | escaped (e : PyExc)
  deriving DecidableEq

/-- The process boundary of test-mcp-sse.py and test-mcp-sse-v2.py: `main`
calls `sys.exit(0 if success else 1)` and nothing wraps `main()`, so an
exception that reaches the top level (in particular a KeyboardInterrupt,
which no `except Exception` clause stops) escapes to the interpreter. -/
def sse_script_boundary : Except PyExc Bool → RunEnd
  | .ok success => .exitCode (if success then 0 else 1)
  | .error e => .escaped e

/-- The process boundary of test_mcp_client.py (lines 358-366):
`sys.exit(main())` wrapped in handlers mapping KeyboardInterrupt to exit
code 130 and any other exception to a fatal-error message and exit code
1. -/
def client_boundary : Except PyExc Nat → RunEnd
  | .ok code => .exitCode code
  | .error .keyboardInterrupt => .exitCode 130
  | .error .unexpected => .exitCode 1

/-! ## Helper lemmas -/

theorem pollFind_eq_none_iff (obs : Nat → Option String) (n : Nat) :
    pollFind obs n = none ↔ ∀ i, i ≤ n → obs i = none := by
  constructor
  · intro h i hi
    unfold pollFind at h
    cases hf : (List.range n).findSome? obs with
    | some s => rw [hf] at h; exact absurd h (by simp)
    | none =>
      rw [hf] at h
      rcases Nat.lt_or_ge i n with hlt | hge
      · exact List.findSome?_eq_none_iff.mp hf i (List.mem_range.mpr hlt)
      · have hin : i = n := Nat.le_antisymm hi hge
        rw [hin]; exact h
  · intro h
    unfold pollFind
    have hf : (List.range n).findSome? obs = none :=
      List.findSome?_eq_none_iff.mpr fun i hi => h i (Nat.le_of_lt (List.mem_range.mp hi))
    rw [hf]
    exact h n (Nat.le_refl n)

theorem pollFind_isSome_exists (obs : Nat → Option String) (n : Nat) (s : String)
    (h : pollFind obs n = some s) : ∃ i, i ≤ n ∧ obs i = some s := by
  unfold pollFind at h
  cases hf : (List.range n).findSome? obs with
  | some t =>
    rw [hf] at h
    obtain ⟨a, ha, hfa⟩ := List.exists_of_findSome?_eq_some hf
    exact ⟨a, Nat.le_of_lt (List.mem_range.mp ha), by rw [hfa]; exact h⟩
  | none =>
    rw [hf] at h
    exact ⟨n, Nat.le_refl n, h⟩

theorem consumeOutcome_flags (queue : List (Option Json)) :
    (consumeOutcome queue).accepted = true ∧ (consumeOutcome queue).postIssued = true ∧
    (consumeOutcome queue).queueRead = true ∧
    (consumeOutcome queue).consumed = queue.head? := by
  cases queue with
  | nil => exact ⟨rfl, rfl, rfl, rfl⟩
  | cons p t =>
    cases p with
    | none => exact ⟨rfl, rfl, rfl, rfl⟩
    | some r => cases hr : interpretResponse r <;> simp [consumeOutcome, hr]

theorem isPrefixOf_append_self : ∀ (l t : List Char), l.isPrefixOf (l ++ t) = true
  | [], _ => by simp
  | c :: cs, t => by
    simp [List.isPrefixOf_cons₂, isPrefixOf_append_self cs t]

theorem hayContains_append_mid : ∀ (a pat rest : List Char),
    pyIn.hayContains pat (a ++ (pat ++ rest)) = true
  | [], pat, rest => by
    cases pat with
    | nil => cases rest <;> simp [pyIn.hayContains]
    | cons p ps =>
      simp [pyIn.hayContains, List.isPrefixOf_cons₂, isPrefixOf_append_self]
  | c :: a', pat, rest => by
    simp [pyIn.hayContains, hayContains_append_mid a' pat rest]

theorem takeWhile_append_all (p : Char → Bool) :
    ∀ (t b : List Char), t.all p = true → (t ++ b).takeWhile p = t ++ b.takeWhile p
  | [], b, _ => by simp
  | c :: t', b, h => by
    simp only [List.all_cons, Bool.and_eq_true] at h
    simp [List.takeWhile_cons, h.1, takeWhile_append_all p t' b h.2]

theorem takeWhile_eq_nil_of_head (p : Char → Bool) (b : List Char)
    (h : ∀ c, b.head? = some c → p c = false) : b.takeWhile p = [] := by
  cases b with
  | nil => rfl
  | cons c cs => simp [List.takeWhile_cons, h c rfl]

theorem matchHere_decomp (t b : List Char) (ht : t ≠ []) (hall : t.all hexHyphen = true)
    (hb : ∀ c, b.head? = some c → hexHyphen c = false) :
    matchHere (sessLit ++ (t ++ b)) = true ∧ tokenHere (sessLit ++ (t ++ b)) = t := by
  have hdrop : (sessLit ++ (t ++ b)).drop sessLit.length = t ++ b := List.drop_left _ _
  have htw : (t ++ b).takeWhile hexHyphen = t := by
    rw [takeWhile_append_all hexHyphen t b hall, takeWhile_eq_nil_of_head hexHyphen b hb,
      List.append_nil]
  have htok : tokenHere (sessLit ++ (t ++ b)) = t := by
    unfold tokenHere; rw [hdrop, htw]
  refine ⟨?_, htok⟩
  unfold matchHere
  rw [isPrefixOf_append_self]
  have hne : (((sessLit ++ (t ++ b)).drop sessLit.length).takeWhile hexHyphen).isEmpty = false := by
    rw [hdrop, htw]
    cases t with
    | nil => exact absurd rfl ht
    | cons c cs => rfl
  rw [hne]
  rfl

theorem reSearchSession_skip (rest : List Char) : ∀ (a : List Char),
    (∀ p, p < a.length → matchAtB (a ++ rest) p = false) →
    reSearchSession (a ++ rest) = reSearchSession rest
  | [], _ => by rfl
  | c :: a', h => by
    have h0 : matchHere (c :: (a' ++ rest)) = false := by
      have h00 := h 0 (Nat.succ_pos _)
      simpa [matchAtB] using h00
    have hrec : ∀ p, p < a'.length → matchAtB (a' ++ rest) p = false := by
      intro p hp
      have hs := h (p + 1) (Nat.succ_lt_succ hp)
      simpa [matchAtB, List.cons_append] using hs
    calc reSearchSession ((c :: a') ++ rest)
        = reSearchSession (a' ++ rest) := by
          simp [List.cons_append, reSearchSession, h0]
      _ = reSearchSession rest := reSearchSession_skip rest a' hrec

theorem reSearchSession_of_matchHere (l : List Char) (h : matchHere l = true) :
    reSearchSession l = some (tokenHere l) := by
  cases l with
  | nil => exact absurd h (by decide)
  | cons c cs => simp [reSearchSession, h]

theorem sessionStep_responses (st : ListenerState) (line : List Char) :
    (sessionStep st line).sse_responses = st.sse_responses := by
  unfold sessionStep
  split
  · cases reSearchSession line <;> rfl
  · rfl

theorem sessionStep_of_some (st : ListenerState) (line : List Char) (s : List Char)
    (h : st.session_id = some s) : sessionStep st line = st := by
  unfold sessionStep
  rw [h]
  rfl

theorem dataStep_session_id (st : ListenerState) (line : List Char) :
    (dataStep st line).session_id = st.session_id := by
  unfold dataStep
  split
  · dsimp only
    split <;> rfl
  · rfl

theorem interpret_success_shape (r : Json) (h : interpretResponse r = RpcInterp.success) :
    reportsToolsSuccess r = true := by
  unfold interpretResponse at h
  split at h
  · exact RpcInterp.noConfusion h
  · exact RpcInterp.noConfusion h
  · split at h
    · exact RpcInterp.noConfusion h
    · rename_i rv h2
      split at h
      · exact RpcInterp.noConfusion h
      · exact RpcInterp.noConfusion h
      · split at h
        · exact RpcInterp.noConfusion h
        · rename_i tools h4
          split at h
          · rename_i h5
            cases r <;> simp only [pySubscript] at h2 <;> try exact Option.noConfusion h2
            rename_i kvs
            cases rv <;> simp only [pySubscript] at h4 <;> try exact Option.noConfusion h4
            rename_i kvs2
            simp [reportsToolsSuccess, h2, h4, h5]
          · exact RpcInterp.noConfusion h

theorem interpret_success_intro (r : Json) (h : reportsToolsSuccess r = true) :
    interpretResponse r = RpcInterp.success := by
  unfold reportsToolsSuccess at h
  cases r <;> try exact Bool.noConfusion h
  rename_i kvs
  cases hres : List.lookup "result" kvs with
  | none => simp only [hres] at h; exact Bool.noConfusion h
  | some rv =>
    simp only [hres] at h
    cases rv <;> try exact Bool.noConfusion h
    rename_i kvs2
    cases htools : List.lookup "tools" kvs2 with
    | none => simp only [htools] at h; exact Bool.noConfusion h
    | some tools =>
      simp only [htools] at h
      simp [interpretResponse, pyIn, pySubscript, hres, htools, h]

theorem interpret_success_iff (r : Json) :
    interpretResponse r = RpcInterp.success ↔ reportsToolsSuccess r = true :=
  ⟨interpret_success_shape r, interpret_success_intro r⟩

theorem consumeOutcome_success_head (r : Json) (rest : List (Option Json)) :
    (consumeOutcome (some r :: rest)).success = reportsToolsSuccess r := by
  cases hb : reportsToolsSuccess r with
  | true =>
    have hi : interpretResponse r = RpcInterp.success := (interpret_success_iff r).mpr hb
    simp [consumeOutcome, hi]
  | false =>
    have hi : interpretResponse r ≠ RpcInterp.success := by
      intro hcontra
      rw [(interpret_success_iff r).mp hcontra] at hb
      exact Bool.noConfusion hb
    cases hi2 : interpretResponse r with
    | success => exact absurd hi2 hi
    | unexpectedFormat => simp [consumeOutcome, hi2]
    | excFail => simp [consumeOutcome, hi2]

/-! ## Claim C1 -/

/-- C1: in both sse scripts, when no session id is observed during the
bounded polling wait (all polls and the final check), test_mcp_flow
returns failure without issuing the POST; conversely the POST is issued
only when some poll observed a session id. The endpoint-URL client
likewise refuses to POST without a discovered message URL. -/
theorem C1_no_post_without_session :
    (∀ (obs : Nat → Option String) (post : PostV1) (queue : List (Option Json)),
      (∀ i, i ≤ 20 → obs i = none) →
      (test_mcp_flow_v1 obs post queue).success = false ∧
      (test_mcp_flow_v1 obs post queue).postIssued = false) ∧
    (∀ (connObs : Nat → Bool) (obs : Nat → Option String) (post : PostV2)
      (queue : List (Option Json)),
      (∀ i, i ≤ 10 → obs i = none) →
      (test_mcp_flow_v2 connObs obs post queue).success = false ∧
      (test_mcp_flow_v2 connObs obs post queue).postIssued = false) ∧
    (∀ (obs : Nat → Option String) (post : PostV1) (queue : List (Option Json)),
      (test_mcp_flow_v1 obs post queue).postIssued = true →
      ∃ i, i ≤ 20 ∧ (obs i).isSome = true) ∧
    (∀ (connObs : Nat → Bool) (obs : Nat → Option String) (post : PostV2)
      (queue : List (Option Json)),
      (test_mcp_flow_v2 connObs obs post queue).postIssued = true →
      ∃ i, i ≤ 10 ∧ (obs i).isSome = true) ∧
    (∀ post : PostClient,
      (test_mcp_rpc_call none post).postIssued = false ∧
      (test_mcp_rpc_call none post).success = false) := by
  refine ⟨?_, ?_, ?_, ?_, ?_⟩
  · intro obs post queue h
    have hn : pollFind obs 20 = none := (pollFind_eq_none_iff obs 20).mpr h
    constructor <;> simp [test_mcp_flow_v1, hn]
  · intro connObs obs post queue h
    cases hc : pollFlag connObs 10 with
    | false => constructor <;> simp [test_mcp_flow_v2, hc]
    | true =>
      have hn : pollFind obs 10 = none := (pollFind_eq_none_iff obs 10).mpr h
      constructor <;> simp [test_mcp_flow_v2, hc, hn]
  · intro obs post queue hpost
    cases h20 : pollFind obs 20 with
    | none => rw [show (test_mcp_flow_v1 obs post queue).postIssued = false by
        simp [test_mcp_flow_v1, h20]] at hpost; exact Bool.noConfusion hpost
    | some s =>
      obtain ⟨i, hi, hoi⟩ := pollFind_isSome_exists obs 20 s h20
      exact ⟨i, hi, by rw [hoi]; rfl⟩
  · intro connObs obs post queue hpost
    cases hc : pollFlag connObs 10 with
    | false => rw [show (test_mcp_flow_v2 connObs obs post queue).postIssued = false by
        simp [test_mcp_flow_v2, hc]] at hpost; exact Bool.noConfusion hpost
    | true =>
      cases h10 : pollFind obs 10 with
      | none => rw [show (test_mcp_flow_v2 connObs obs post queue).postIssued = false by
          simp [test_mcp_flow_v2, hc, h10]] at hpost; exact Bool.noConfusion hpost
      | some s =>
        obtain ⟨i, hi, hoi⟩ := pollFind_isSome_exists obs 10 s h10
        exact ⟨i, hi, by rw [hoi]; rfl⟩
  · intro post
    exact ⟨rfl, rfl⟩

/-- C1 witness: with a stream that never yields a session id, the v1 flow
fails and issues no POST. -/
theorem C1_no_post_without_session_witness :
    (test_mcp_flow_v1 (fun _ => none) (PostV1.status 200 "") []).success = false ∧
    (test_mcp_flow_v1 (fun _ => none) (PostV1.status 200 "") []).postIssued = false :=
  C1_no_post_without_session.1 (fun _ => none) (PostV1.status 200 "") []
    (fun _ _ => rfl)

/-! ## Claim C5 -/

/-- C5: after an accepted POST both sse flows consume exactly the entry at
index 0 of the shared response queue, for every queue — in particular the
payload's id field is never compared with the request id, since the
consumed entry is the head whatever its contents. -/
theorem C5_first_entry_consumed :
    (∀ (obs : Nat → Option String) (code : Nat) (body : String)
      (queue : List (Option Json)),
      (pollFind obs 20).isSome = true → acceptedStatus code = true →
      (test_mcp_flow_v1 obs (PostV1.status code body) queue).consumed = queue.head?) ∧
    (∀ (connObs : Nat → Bool) (obs : Nat → Option String) (code : Nat) (body : String)
      (queue : List (Option Json)),
      pollFlag connObs 10 = true → (pollFind obs 10).isSome = true →
      acceptedStatusV2 code = true →
      (test_mcp_flow_v2 connObs obs (PostV2.status code body) queue).consumed =
        queue.head?) := by
  constructor
  · intro obs code body queue hs hacc
    cases h20 : pollFind obs 20 with
    | none => rw [h20] at hs; exact Bool.noConfusion hs
    | some s =>
      have := (consumeOutcome_flags queue).2.2.2
      simp [test_mcp_flow_v1, h20, hacc, this]
  · intro connObs obs code body queue hc hs hacc
    cases h10 : pollFind obs 10 with
    | none => rw [h10] at hs; exact Bool.noConfusion hs
    | some s =>
      have := (consumeOutcome_flags queue).2.2.2
      simp [test_mcp_flow_v2, hc, h10, hacc, this]

/-- C5 witness: a queued payload whose id (99) differs from the request id
(1) is still the one consumed. -/
theorem C5_first_entry_consumed_witness :
    (test_mcp_flow_v1 (fun _ => some "s") (PostV1.status 200 "")
      [some (Json.obj [("id", Json.num 99)]), some (Json.obj [("id", Json.num 1)])]).consumed =
      some (some (Json.obj [("id", Json.num 99)])) :=
  C5_first_entry_consumed.1 (fun _ => some "s") 200 ""
    [some (Json.obj [("id", Json.num 99)]), some (Json.obj [("id", Json.num 1)])]
    rfl rfl

/-! ## Claim C9 -/

/-- C9 counterexample: in the sse scripts nothing wraps main, so a
KeyboardInterrupt does not become exit code 130 and an unexpected
exception escapes the process boundary, contradicting the claim for those
two diagnostic scripts. -/
theorem C9_counterexample :
    sse_script_boundary (Except.error PyExc.keyboardInterrupt) =
      RunEnd.escaped PyExc.keyboardInterrupt ∧
    sse_script_boundary (Except.error PyExc.keyboardInterrupt) ≠ RunEnd.exitCode 130 ∧
    sse_script_boundary (Except.error PyExc.unexpected) =
      RunEnd.escaped PyExc.unexpected := by
  refine ⟨rfl, ?_, rfl⟩
  intro h
  exact RunEnd.noConfusion h

/-- C9 amended: test_mcp_client.py exits 0 on success, 1 on failure, 130
on user interrupt and 1 after catching any other top-level exception, and
no exception escapes its boundary; the two sse scripts exit 0 on success
and 1 on failure but install no top-level handler, so a user interrupt or
an unexpected exception escapes to the interpreter. -/
theorem C9_amended_boundaries :
    (∀ b : Bool, sse_script_boundary (Except.ok b) =
      RunEnd.exitCode (if b then 0 else 1)) ∧
    (∀ e : PyExc, sse_script_boundary (Except.error e) = RunEnd.escaped e) ∧
    (∀ (x : Except PyExc Nat) (e : PyExc), client_boundary x ≠ RunEnd.escaped e) ∧
    (∀ code : Nat, client_boundary (Except.ok code) = RunEnd.exitCode code) ∧
    client_boundary (Except.error PyExc.keyboardInterrupt) = RunEnd.exitCode 130 ∧
    client_boundary (Except.error PyExc.unexpected) = RunEnd.exitCode 1 := by
  refine ⟨fun b => rfl, fun e => rfl, ?_, fun code => rfl, rfl, rfl⟩
  intro x e
  cases x with
  | ok code => exact fun h => RunEnd.noConfusion h
  | error e2 => cases e2 <;> exact fun h => RunEnd.noConfusion h

/-! ## Claim C10 -/

/-- C10: the prtg_get_sensors check returns True on HTTP 200 with a dict
body carrying an error key, exactly as it does for one carrying a result
key; it returns False when the status is not 200, when the dict carries
neither key, and when an exception occurs (non-JSON body, transport
error). -/
theorem C10_get_sensors_error_is_success :
    (∀ (url : String) (kvs : List (String × Json)),
      (List.lookup "error" kvs).isSome = true →
      test_mcp_get_sensors (some url) (PostClient.status 200 (some (Json.obj kvs))) = true) ∧
    (∀ (url : String) (kvs : List (String × Json)),
      (List.lookup "result" kvs).isSome = true →
      test_mcp_get_sensors (some url) (PostClient.status 200 (some (Json.obj kvs))) = true) ∧
    (∀ (url : String) (code : Nat) (body : Option Json), code ≠ 200 →
      test_mcp_get_sensors (some url) (PostClient.status code body) = false) ∧
    (∀ (url : String) (kvs : List (String × Json)),
      List.lookup "result" kvs = none → List.lookup "error" kvs = none →
      test_mcp_get_sensors (some url) (PostClient.status 200 (some (Json.obj kvs))) = false) ∧
    (∀ (url : String) (code : Nat),
      test_mcp_get_sensors (some url) (PostClient.status code none) = false) ∧
    (∀ url : String, test_mcp_get_sensors (some url) PostClient.exc = false) := by
  refine ⟨?_, ?_, ?_, ?_, ?_, ?_⟩
  · intro url kvs herr
    cases hres : List.lookup "result" kvs with
    | some v => simp [test_mcp_get_sensors, pyIn, hres]
    | none => simp [test_mcp_get_sensors, pyIn, hres, herr]
  · intro url kvs hres
    rcases Option.isSome_iff_exists.mp hres with ⟨v, hv⟩
    simp [test_mcp_get_sensors, pyIn, hv]
  · intro url code body hne
    have h : (code == 200) = false := beq_eq_false_iff_ne.mpr hne
    simp [test_mcp_get_sensors, h]
  · intro url kvs hres herr
    simp [test_mcp_get_sensors, pyIn, hres, herr]
  · intro url code
    cases h : (code == 200) <;> simp [test_mcp_get_sensors, h]
  · intro url
    rfl

/-- C10 witness: an error-only JSON-RPC body on HTTP 200 is reported as
overall success by the prtg_get_sensors check. -/
theorem C10_get_sensors_error_is_success_witness :
    test_mcp_get_sensors (some "http://h/message")
      (PostClient.status 200 (some (Json.obj [("error", Json.str "db down")]))) = true :=
  C10_get_sensors_error_is_success.1 "http://h/message" [("error", Json.str "db down")] rfl

/-! ## Claim C3 -/

/-- C3 counterexample: a response whose result field contains a tools
array (as the claim requires for success) whose entry lacks a description
key is not reported as success — the presentation loop raises KeyError
and the caught exception yields failure; and a response carrying an error
field is classified as the unexpected-format failure, not surfaced as a
distinct error outcome. -/
theorem C3_counterexample :
    specResultToolsArray
      (Json.obj [("result", Json.obj [("tools",
        Json.arr [Json.obj [("name", Json.str "t")]])])]) = true ∧
    (test_mcp_flow_v1 (fun _ => some "s") (PostV1.status 200 "")
      [some (Json.obj [("result", Json.obj [("tools",
        Json.arr [Json.obj [("name", Json.str "t")]])])])]).accepted = true ∧
    (test_mcp_flow_v1 (fun _ => some "s") (PostV1.status 200 "")
      [some (Json.obj [("result", Json.obj [("tools",
        Json.arr [Json.obj [("name", Json.str "t")]])])])]).success = false ∧
    interpretResponse (Json.obj [("error", Json.obj [("code", Json.num (-32600))])]) =
      RpcInterp.unexpectedFormat := by
  refine ⟨rfl, rfl, rfl, rfl⟩

/-- C3 amended: the flows report success exactly when the consumed parsed
object is a dict whose result entry is a dict whose tools entry presents
without raising (a list of dicts each with name and description, or an
empty string or dict); a parsed object without a result key — in
particular one carrying only an error field — is reported as the
unexpected-format failure (the full parsed response, error included,
having been printed beforehand); remaining shapes fail through the caught
exception. -/
theorem C3_amended_result_interpretation :
    (∀ r : Json, interpretResponse r = RpcInterp.success ↔ reportsToolsSuccess r = true) ∧
    (∀ kvs : List (String × Json), List.lookup "result" kvs = none →
      interpretResponse (Json.obj kvs) = RpcInterp.unexpectedFormat) ∧
    (∀ (obs : Nat → Option String) (body : String) (r : Json) (rest : List (Option Json)),
      (pollFind obs 20).isSome = true →
      (test_mcp_flow_v1 obs (PostV1.status 200 body) (some r :: rest)).success =
        reportsToolsSuccess r) ∧
    (∀ (connObs : Nat → Bool) (obs : Nat → Option String) (body : String) (r : Json)
      (rest : List (Option Json)),
      pollFlag connObs 10 = true → (pollFind obs 10).isSome = true →
      (test_mcp_flow_v2 connObs obs (PostV2.status 200 body) (some r :: rest)).success =
        reportsToolsSuccess r) := by
  refine ⟨interpret_success_iff, ?_, ?_, ?_⟩
  · intro kvs h
    simp [interpretResponse, pyIn, h]
  · intro obs body r rest hs
    cases h20 : pollFind obs 20 with
    | none => rw [h20] at hs; exact Bool.noConfusion hs
    | some s =>
      have hcons := consumeOutcome_success_head r rest
      simp [test_mcp_flow_v1, h20, acceptedStatus, hcons]
  · intro connObs obs body r rest hc hs
    cases h10 : pollFind obs 10 with
    | none => rw [h10] at hs; exact Bool.noConfusion hs
    | some s =>
      have hcons := consumeOutcome_success_head r rest
      simp [test_mcp_flow_v2, hc, h10, acceptedStatusV2, hcons]

/-- C3 amended witness: an error-only response consumed by the v1 flow
yields the failure the amended claim predicts. -/
theorem C3_amended_result_interpretation_witness :
    (test_mcp_flow_v1 (fun _ => some "s") (PostV1.status 200 "")
      [some (Json.obj [("error", Json.str "boom")])]).success =
      reportsToolsSuccess (Json.obj [("error", Json.str "boom")]) :=
  C3_amended_result_interpretation.2.2.1 (fun _ => some "s") ""
    (Json.obj [("error", Json.str "boom")]) [] rfl

/-! ## Claim C4 -/

/-- C4 counterexample: the v1 script, on a POST status outside 200/202,
prints only the numeric status — the response body text ("BODYTEXT")
appears in no diagnostic, contradicting the claim that the hard failure is
reported with the body text. -/
theorem C4_counterexample :
    (test_mcp_flow_v1 (fun _ => some "s") (PostV1.status 204 "BODYTEXT") []).success =
      false ∧
    (test_mcp_flow_v1 (fun _ => some "s") (PostV1.status 204 "BODYTEXT") []).diagnostics =
      ["❌ Unexpected status: 204"] ∧
    pyIn.hayContains "BODYTEXT".toList ("❌ Unexpected status: 204").toList = false := by
  refine ⟨rfl, rfl, ?_⟩
  decide

/-- C4 amended: both flows treat the POST as accepted exactly for statuses
200 and 202; on any other status they report failure and do not read the
shared response queue; the v2 script includes the response body text in
its diagnostic while the v1 script reports only the numeric status. -/
theorem C4_amended_status_handling :
    (∀ (obs : Nat → Option String) (code : Nat) (body : String)
      (queue : List (Option Json)),
      (pollFind obs 20).isSome = true →
      (((test_mcp_flow_v1 obs (PostV1.status code body) queue).accepted = true) ↔
        (code = 200 ∨ code = 202)) ∧
      (acceptedStatus code = false →
        (test_mcp_flow_v1 obs (PostV1.status code body) queue).success = false ∧
        (test_mcp_flow_v1 obs (PostV1.status code body) queue).queueRead = false ∧
        (test_mcp_flow_v1 obs (PostV1.status code body) queue).diagnostics =
          ["❌ Unexpected status: " ++ toString code])) ∧
    (∀ (connObs : Nat → Bool) (obs : Nat → Option String) (code : Nat) (body : String)
      (queue : List (Option Json)),
      pollFlag connObs 10 = true → (pollFind obs 10).isSome = true →
      (((test_mcp_flow_v2 connObs obs (PostV2.status code body) queue).accepted = true) ↔
        (code = 200 ∨ code = 202)) ∧
      (acceptedStatusV2 code = false →
        (test_mcp_flow_v2 connObs obs (PostV2.status code body) queue).success = false ∧
        (test_mcp_flow_v2 connObs obs (PostV2.status code body) queue).queueRead = false ∧
        (test_mcp_flow_v2 connObs obs (PostV2.status code body) queue).diagnostics =
          ["❌ Unexpected status: " ++ toString code, "   Response: " ++ body])) := by
  constructor
  · intro obs code body queue hs
    cases h20 : pollFind obs 20 with
    | none => rw [h20] at hs; exact Bool.noConfusion hs
    | some s =>
      constructor
      · cases hacc : acceptedStatus code with
        | true =>
          have hq := (consumeOutcome_flags queue).1
          have hcode : code = 202 ∨ code = 200 := by
            have := hacc
            simp only [acceptedStatus, Bool.or_eq_true, beq_iff_eq] at this
            exact this
          simp only [test_mcp_flow_v1, h20, hacc, if_true]
          constructor
          · intro _; tauto
          · intro _; exact hq
        | false =>
          have hcode : ¬(code = 202) ∧ ¬(code = 200) := by
            have := hacc
            simp only [acceptedStatus, Bool.or_eq_false_iff, beq_eq_false_iff_ne, ne_eq]
              at this
            exact this
          simp only [test_mcp_flow_v1, h20, hacc, if_false]
          constructor
          · intro hxx; exact Bool.noConfusion hxx
          · intro hor; cases hor with
            | inl h1 => exact absurd h1 hcode.2
            | inr h2 => exact absurd h2 hcode.1
      · intro hacc
        simp [test_mcp_flow_v1, h20, hacc]
  · intro connObs obs code body queue hc hs
    cases h10 : pollFind obs 10 with
    | none => rw [h10] at hs; exact Bool.noConfusion hs
    | some s =>
      constructor
      · cases hacc : acceptedStatusV2 code with
        | true =>
          have hq := (consumeOutcome_flags queue).1
          have hcode : code = 200 ∨ code = 202 := by
            have := hacc
            simp only [acceptedStatusV2, Bool.or_eq_true, beq_iff_eq] at this
            exact this
          simp only [test_mcp_flow_v2, hc, h10, hacc, if_true]
          constructor
          · intro _; exact hcode
          · intro _; exact hq
        | false =>
          have hcode : ¬(code = 200) ∧ ¬(code = 202) := by
            have := hacc
            simp only [acceptedStatusV2, Bool.or_eq_false_iff, beq_eq_false_iff_ne, ne_eq]
              at this
            exact this
          simp only [test_mcp_flow_v2, hc, h10, hacc, if_false]
          constructor
          · intro hxx; exact Bool.noConfusion hxx
          · intro hor; cases hor with
            | inl h1 => exact absurd h1 hcode.1
            | inr h2 => exact absurd h2 hcode.2
      · intro hacc
        simp [test_mcp_flow_v2, hc, h10, hacc]

/-- C4 amended witness: a concrete 204 POST response is rejected by the v1
flow without touching the queue, and the diagnostic carries only the
numeric status. -/
theorem C4_amended_status_handling_witness :
    (test_mcp_flow_v1 (fun _ => some "s") (PostV1.status 204 "B") []).success = false ∧
    (test_mcp_flow_v1 (fun _ => some "s") (PostV1.status 204 "B") []).queueRead = false ∧
    (test_mcp_flow_v1 (fun _ => some "s") (PostV1.status 204 "B") []).diagnostics =
      ["❌ Unexpected status: " ++ toString 204] :=
  (C4_amended_status_handling.1 (fun _ => some "s") 204 "B" [] rfl).2 rfl

/-! ## Claim C6 -/

/-- C6 counterexample: test_mcp_client.py presents the POST's own HTTP
response body — two runs identical except for that body yield different
presented responses and different verdicts, and the presented response
equals the POST body, contradicting the claim that in both variants the
response is never taken from the POST's own HTTP response. -/
theorem C6_counterexample :
    (test_mcp_rpc_call (some "http://h/message")
      (PostClient.status 200 (some (Json.obj [("result",
        Json.obj [("tools", Json.arr [])])])))).success = true ∧
    (test_mcp_rpc_call (some "http://h/message")
      (PostClient.status 200 (some (Json.obj [])))).success = false ∧
    (test_mcp_rpc_call (some "http://h/message")
      (PostClient.status 200 (some (Json.obj [("result",
        Json.obj [("tools", Json.arr [])])])))).presented =
      some (Json.obj [("result", Json.obj [("tools", Json.arr [])])]) := by
  refine ⟨rfl, rfl, rfl⟩

/-- C6 amended: the two sse scripts take the presented response from the
shared SSE queue and never from the POST body (the v1 flow is entirely
independent of the body; the v2 flow is independent of it whenever the
POST is accepted); the endpoint-event client instead presents the parsed
body of the POST's own HTTP response. -/
theorem C6_amended_response_source :
    (∀ (obs : Nat → Option String) (code : Nat) (b1 b2 : String)
      (queue : List (Option Json)),
      test_mcp_flow_v1 obs (PostV1.status code b1) queue =
        test_mcp_flow_v1 obs (PostV1.status code b2) queue) ∧
    (∀ (connObs : Nat → Bool) (obs : Nat → Option String) (code : Nat) (b : String)
      (queue : List (Option Json)),
      acceptedStatusV2 code = true →
      test_mcp_flow_v2 connObs obs (PostV2.status code b) queue =
        test_mcp_flow_v2 connObs obs (PostV2.status code "") queue) ∧
    (∀ (obs : Nat → Option String) (code : Nat) (body : String)
      (queue : List (Option Json)),
      (pollFind obs 20).isSome = true → acceptedStatus code = true →
      (test_mcp_flow_v1 obs (PostV1.status code body) queue).consumed = queue.head?) ∧
    (∀ (url : String) (code : Nat) (data : Json),
      (test_mcp_rpc_call (some url) (PostClient.status code (some data))).presented =
        some data) := by
  refine ⟨?_, ?_, ?_, ?_⟩
  · intro obs code b1 b2 queue
    cases h20 : pollFind obs 20 <;> simp [test_mcp_flow_v1, h20]
  · intro connObs obs code b queue hacc
    cases hc : pollFlag connObs 10 with
    | false => simp [test_mcp_flow_v2, hc]
    | true =>
      cases h10 : pollFind obs 10 <;> simp [test_mcp_flow_v2, hc, h10, hacc]
  · intro obs code body queue hs hacc
    cases h20 : pollFind obs 20 with
    | none => rw [h20] at hs; exact Bool.noConfusion hs
    | some s =>
      have := (consumeOutcome_flags queue).2.2.2
      simp [test_mcp_flow_v1, h20, hacc, this]
  · intro url code data
    rfl

/-- C6 amended witness: with an accepted POST the v1 flow presents the
head of the SSE queue, not anything derived from the POST body. -/
theorem C6_amended_response_source_witness :
    (test_mcp_flow_v1 (fun _ => some "s") (PostV1.status 200 "ignored")
      [some (Json.obj [])]).consumed = some (some (Json.obj [])) :=
  C6_amended_response_source.2.2.1 (fun _ => some "s") 200 "ignored"
    [some (Json.obj [])] rfl rfl

/-! ## Claim C7 -/

/-- C7 counterexample: a stream whose first event is not named endpoint
and whose second event is a named endpoint event yields no published URL
at all — the observed endpoint event's data is not published,
contradicting the claim that every observed endpoint event has its data
published (first such event wins). -/
theorem C7_counterexample :
    test_sse_connection
      [SSEEvent.mk "message".toList "x".toList,
       SSEEvent.mk "endpoint".toList "http://u/m".toList] = (false, none) ∧
    SSEEvent.mk "endpoint".toList "http://u/m".toList ∈
      [SSEEvent.mk "message".toList "x".toList,
       SSEEvent.mk "endpoint".toList "http://u/m".toList] := by
  constructor
  · decide
  · simp

/-- C7 amended: only the first framed event of the stream is ever
examined; if that first event is named endpoint its data is published
verbatim as the message-post URL and listening stops, otherwise the
connection test reports failure with no URL published, later endpoint
events never being looked at; an empty stream also publishes nothing. -/
theorem C7_amended_first_event_only :
    (∀ (e : SSEEvent) (rest : List SSEEvent), e.event = endpointLit →
      test_sse_connection (e :: rest) = (true, some e.data)) ∧
    (∀ (e : SSEEvent) (rest : List SSEEvent), e.event ≠ endpointLit →
      test_sse_connection (e :: rest) = (false, none)) ∧
    test_sse_connection [] = (false, none) := by
  refine ⟨?_, ?_, rfl⟩
  · intro e rest h
    simp [test_sse_connection, h]
  · intro e rest h
    simp [test_sse_connection, h]

/-- C7 amended witness: a first event named endpoint publishes its data
verbatim. -/
theorem C7_amended_first_event_only_witness :
    test_sse_connection [SSEEvent.mk endpointLit "http://u/m".toList] =
      (true, some "http://u/m".toList) :=
  C7_amended_first_event_only.1 (SSEEvent.mk endpointLit "http://u/m".toList) [] rfl

/-! ## Claim C8 -/

/-- C8: for every decoded line whose stripped form begins with data:, the
listener appends the stripped remainder after the five marker characters
to the shared response queue iff that remainder is non-empty and does not
start with http (the code's bare-URL test); a line whose stripped form
does not begin with data: never changes the queue. -/
theorem C8_data_line_enqueue :
    (∀ (st : ListenerState) (raw : List Char),
      dataLit.isPrefixOf (pyStrip raw) = true →
      (processLine st raw).sse_responses =
        (if !(pyStrip ((pyStrip raw).drop 5)).isEmpty &&
            !(httpLit.isPrefixOf (pyStrip ((pyStrip raw).drop 5))) then
          st.sse_responses ++ [pyStrip ((pyStrip raw).drop 5)]
        else st.sse_responses)) ∧
    (∀ (st : ListenerState) (raw : List Char),
      dataLit.isPrefixOf (pyStrip raw) = false →
      (processLine st raw).sse_responses = st.sse_responses) := by
  constructor
  · intro st raw hd
    unfold processLine dataStep
    rw [if_pos hd]
    dsimp only
    cases hcond : !(pyStrip ((pyStrip raw).drop 5)).isEmpty &&
        !(httpLit.isPrefixOf (pyStrip ((pyStrip raw).drop 5))) with
    | true => simp [sessionStep_responses]
    | false => simp [sessionStep_responses]
  · intro st raw hd
    simp [processLine, dataStep, hd, sessionStep_responses]

/-- C8 witness: the stripped line data: hello enqueues the payload hello
onto an empty queue. -/
theorem C8_data_line_enqueue_witness :
    (processLine (ListenerState.mk none []) "data: hello".toList).sse_responses =
      ["hello".toList] := by
  rw [C8_data_line_enqueue.1 (ListenerState.mk none []) "data: hello".toList (by decide)]
  rfl

/-! ## Claim C2 -/

/-- C2: for every stream line whose stripped form decomposes as a prefix,
the literal sessionId=, a non-empty token of hex-and-hyphen characters
not extendable to the right, with no earlier regex match inside the
prefix, the listener with no captured handle publishes exactly that token
as the session handle; and once a handle is captured, no later line
changes it. -/
theorem C2_session_extraction_first_match :
    (∀ (st : ListenerState) (raw a t b : List Char),
      pyStrip raw = a ++ (sessLit ++ (t ++ b)) →
      t ≠ [] → t.all hexHyphen = true →
      (∀ c, b.head? = some c → hexHyphen c = false) →
      (∀ p, p < a.length → matchAtB (pyStrip raw) p = false) →
      st.session_id = none →
      (processLine st raw).session_id = some t) ∧
    (∀ (st : ListenerState) (raw : List Char) (s : List Char),
      st.session_id = some s → (processLine st raw).session_id = some s) := by
  constructor
  · intro st raw a t b hline ht hall hb hfirst hnone
    have hmatch := matchHere_decomp t b ht hall hb
    have hsearch : reSearchSession (pyStrip raw) = some t := by
      rw [hline]
      rw [reSearchSession_skip (sessLit ++ (t ++ b)) a
        (fun p hp => by rw [← hline]; exact hfirst p hp)]
      rw [reSearchSession_of_matchHere _ hmatch.1, hmatch.2]
    have hhay : pyIn.hayContains sessLit (pyStrip raw) = true := by
      rw [hline]; exact hayContains_append_mid a sessLit (t ++ b)
    unfold processLine
    rw [dataStep_session_id]
    unfold sessionStep
    simp [hnone, hhay, hsearch]
  · intro st raw s h
    unfold processLine
    rw [dataStep_session_id, sessionStep_of_some st (pyStrip raw) s h]
    exact h

/-- C2 witness: the line " sessionId=ab-1" (with surrounding whitespace)
publishes exactly the token ab-1. -/
theorem C2_session_extraction_first_match_witness :
    (processLine (ListenerState.mk none []) " sessionId=ab-1\n".toList).session_id =
      some "ab-1".toList :=
  C2_session_extraction_first_match.1 (ListenerState.mk none [])
    " sessionId=ab-1\n".toList [] "ab-1".toList [] (by decide) (by decide) (by decide)
    (fun c hc => Option.noConfusion hc)
    (fun p hp => absurd hp (Nat.not_lt_zero p))
    rfl
